import Mathlib

/-!
Shallow embedding of the creator/critic ad-copy workflow (`main.py`).

The program is a LangGraph state machine: a `creator_agent` node generates ad
copy from a prompt, an `editor_agent` node reviews it and parses the backend
response into a decision and feedback, and `should_continue` routes back to the
creator or terminates.  The generative backend (`llm.invoke`) is modelled as an
opaque function `gen : String → String` from prompt text to response text; a
full run takes one response sequence per node, indexed by round.

Python string primitives used by the source (`str.strip`, `str.upper`,
`str.split('\n')`, `str.replace`, `str.startswith`) are re-implemented here
over `List Char` by structural recursion so that all definitions evaluate
inside the kernel.  `str.strip`/`str.isspace` is modelled on the ASCII
whitespace characters.
-/

/-- Python `str.isspace` for the ASCII whitespace characters. -/
def pyIsSpace (c : Char) : Bool :=
  c = ' ' || c = '\t' || c = '\n' || c = '\r' || c = '\x0b' || c = '\x0c'

/-- Characters of Python `s.strip()`: drop whitespace at both ends. -/
def stripChars (cs : List Char) : List Char :=
  ((cs.dropWhile pyIsSpace).reverse.dropWhile pyIsSpace).reverse

/-- Python `s.strip()`. -/
def pyStrip (s : String) : String :=
  ⟨stripChars s.data⟩

/-- Uppercase one character, as Python `str.upper` acts on ASCII. -/
def upperChar (c : Char) : Char :=
  if 'a' ≤ c && c ≤ 'z' then Char.ofNat (c.toNat - 32) else c

/-- Python `s.upper()` (ASCII range). -/
def pyUpper (s : String) : String :=
  ⟨s.data.map upperChar⟩

/-- Characters of Python `s.split('\n')`: split at every newline. -/
def splitLinesChars (acc : List Char) : List Char → List (List Char)
  | [] => [acc.reverse]
  | c :: cs =>
    if c = '\n' then acc.reverse :: splitLinesChars [] cs
    else splitLinesChars (c :: acc) cs

/-- Python `s.split('\n')`. -/
def pySplitLines (s : String) : List String :=
  (splitLinesChars [] s.data).map fun l => ⟨l⟩

/-- Python `s.startswith(p)`. -/
def pyStartsWith (s p : String) : Bool :=
  p.data.isPrefixOf s.data

/-- Characters of Python `s.replace(pat, rep)` for a non-empty pattern:
replace every non-overlapping occurrence, left to right.  The fuel argument
(instantiated with the length of `s`) only makes the recursion structural;
each step consumes at least one character. -/
def replaceChars (pat rep : List Char) : Nat → List Char → List Char
  | _, [] => []
  | 0, s => s
  | n + 1, c :: cs =>
    if pat.isPrefixOf (c :: cs) then rep ++ replaceChars pat rep n ((c :: cs).drop pat.length)
    else c :: replaceChars pat rep n cs

/-- Python `s.replace(pat, rep)` for the non-empty patterns the source uses. -/
def pyReplace (s pat rep : String) : String :=
  if pat.data.isEmpty then s else ⟨replaceChars pat.data rep.data s.data.length s.data⟩

/-- Python `sep.join(xs)`. -/
def pyJoin (sep : String) : List String → String
  | [] => ""
  | [x] => x
  | x :: xs => x ++ sep ++ pyJoin sep xs

/-- The shared run state (`AgentState` TypedDict of `main.py`). -/
structure AgentState where
  product_name : String
  target_audience : String
  current_copy : String
  editor_feedback : String
  feedback_history : List String
  decision : String
  retry_count : Nat
  max_retries : Nat
deriving DecidableEq

/-- The partial dictionary a node returns; LangGraph merges it into the state.
A `none` field is absent from the returned dictionary. -/
structure StateDelta where
  product_name : Option String := none
  target_audience : Option String := none
  current_copy : Option String := none
  editor_feedback : Option String := none
  feedback_history : Option (List String) := none
  decision : Option String := none
  retry_count : Option Nat := none
  max_retries : Option Nat := none
deriving DecidableEq

/-- LangGraph's state merge: fields present in the delta overwrite the state,
absent fields are preserved. -/
def applyDelta (s : AgentState) (d : StateDelta) : AgentState where
  product_name := d.product_name.getD s.product_name
  target_audience := d.target_audience.getD s.target_audience
  current_copy := d.current_copy.getD s.current_copy
  editor_feedback := d.editor_feedback.getD s.editor_feedback
  feedback_history := d.feedback_history.getD s.feedback_history
  decision := d.decision.getD s.decision
  retry_count := d.retry_count.getD s.retry_count
  max_retries := d.max_retries.getD s.max_retries

/-- The prompt `creator_agent` builds: fresh generation when `retry_count` is
zero, refinement over the feedback history otherwise. -/
def creatorPrompt (s : AgentState) : String :=
  if s.retry_count = 0 then
    "Write a short, punchy social media ad caption for '" ++ s.product_name ++ "'. "
      ++ "Target audience: " ++ s.target_audience ++ ". "
      ++ "Output ONLY the caption text."
  else
    ("Your previous draft for '" ++ s.product_name ++ "' was rejected.\n"
        ++ "Past Feedback History:\n")
      ++ pyJoin "\n" s.feedback_history
      ++ "\n\nMost Recent Feedback: "
      ++ s.editor_feedback
      ++ ("\n\nPlease write a NEW caption that fixes these issues and respects "
          ++ "ALL past feedback. Output ONLY the caption text.")

/-- The `creator_agent` node: invoke the backend once on the built prompt,
strip the returned text, store it as `current_copy` and bump `retry_count`. -/
def creator_agent (gen : String → String) (s : AgentState) : StateDelta :=
  let response := gen (creatorPrompt s)
  { current_copy := some (pyStrip response)
    retry_count := some (s.retry_count + 1) }

/-- The fixed rule checklist embedded in the editor prompt. -/
def editorRules : String :=
  "\n    1. Must be under 15 words.\n    2. Must contain exactly one emoji.\n"
    ++ "    3. Must NOT contain hashtags.\n"
    ++ "    4. Must mention the product name explicitly.\n    "

/-- The evaluation prompt `editor_agent` builds around `current_copy`. -/
def editorPrompt (s : AgentState) : String :=
  "\n    Review this ad copy: \"" ++ s.current_copy ++ "\"\n\n"
    ++ "    Check against these rules:\n    " ++ editorRules ++ "\n\n"
    ++ "    Respond in EXACTLY this format:\n    DECISION: [APPROVED or REJECTED]\n"
    ++ "    FEEDBACK: [One sentence explaining the reason if rejected, or \"Good\" if \n"
    ++ "    approved]\n    "

/-- One iteration of the parsing loop of `editor_agent`: a `DECISION:` line
overwrites the decision, a `FEEDBACK:` line overwrites the feedback. -/
def reviewStep (acc : String × String) (line : String) : String × String :=
  let d := if pyStartsWith line "DECISION:" then pyUpper (pyStrip (pyReplace line "DECISION:" "")) else acc.1
  let f := if pyStartsWith line "FEEDBACK:" then pyStrip (pyReplace line "FEEDBACK:" "") else acc.2
  (d, f)

/-- The response parser of `editor_agent` (lines 103-111 of `main.py`): split
the stripped response into lines and fold the loop over them, starting from
the defaults `REJECTED` and the parse-error sentinel. -/
def parseReview (content : String) : String × String :=
  (pySplitLines content).foldl reviewStep ("REJECTED", "Error parsing feedback")

/-- The `editor_agent` node: invoke the backend once on the evaluation prompt,
parse the stripped response, and append non-trivial feedback to the history. -/
def editor_agent (gen : String → String) (s : AgentState) : StateDelta :=
  let content := pyStrip (gen (editorPrompt s))
  let parsed := parseReview content
  let feedback := parsed.2
  let history :=
    if feedback ≠ "" ∧ feedback ≠ "Good" then s.feedback_history ++ [feedback]
    else s.feedback_history
  { decision := some parsed.1
    editor_feedback := some feedback
    feedback_history := some history
    current_copy := some s.current_copy }

/-- The router (`should_continue` of `main.py`). -/
def should_continue (s : AgentState) : String :=
  if s.decision = "APPROVED" then "approved"
  else if s.max_retries ≤ s.retry_count then "max_retries"
  else "rejected"

/-- The initial run state built by `run_workflow`. -/
def initState (product audience : String) (max_retries : Nat) : AgentState where
  product_name := product
  target_audience := audience
  current_copy := ""
  editor_feedback := ""
  feedback_history := []
  decision := ""
  retry_count := 0
  max_retries := max_retries

/-- One round of the compiled graph: the creator node then the editor node,
each merged into the state.  `cResp k` and `eResp k` are the backend's
responses to the two calls of round `k` (`k` = `retry_count` on entry). -/
def roundStep (cResp eResp : Nat → String) (s : AgentState) : AgentState :=
  let k := s.retry_count
  let s1 := applyDelta s (creator_agent (fun _ => cResp k) s)
  applyDelta s1 (editor_agent (fun _ => eResp k) s1)

/-- The graph's loop: run rounds while the router answers `rejected`.  The
fuel argument makes the recursion structural; `max_retries - retry_count`
rounds always suffice.  Also counts creator invocations (one per round). -/
def runFuel (cResp eResp : Nat → String) : Nat → AgentState → Nat → AgentState × String × Nat
  | 0, s, calls => (s, "rejected", calls)
  | fuel + 1, s, calls =>
    if should_continue (roundStep cResp eResp s) = "rejected" then
      runFuel cResp eResp fuel (roundStep cResp eResp s) (calls + 1)
    else (roundStep cResp eResp s, should_continue (roundStep cResp eResp s), calls + 1)

/-- Model of `run_workflow`: build the initial state and stream the graph
until the router terminates.  Returns the final state, the terminal router
outcome and the number of creator invocations. -/
def run_workflow (cResp eResp : Nat → String) (product audience : String)
    (max_retries : Nat) : AgentState × String × Nat :=
  runFuel cResp eResp max_retries (initState product audience max_retries) 0

/-- States reachable during a run: the initial state, closed under merging a
creator delta or an editor delta, for any backend behaviour. -/
inductive Reachable : AgentState → Prop where
  | init : ∀ p a m, Reachable (initState p a m)
  | creator : ∀ g s, Reachable s → Reachable (applyDelta s (creator_agent g s))
  | editor : ∀ g s, Reachable s → Reachable (applyDelta s (editor_agent g s))

/-- A concrete state used to instantiate universally quantified theorems. -/
def sampleState : AgentState where
  product_name := "Omega 3 Fish Oil"
  target_audience := "Health-conscious Seniors"
  current_copy := "Omega 3 Fish Oil keeps you sharp"
  editor_feedback := "Too long"
  feedback_history := ["Too long"]
  decision := "REJECTED"
  retry_count := 1
  max_retries := 5

/-- Claim C2: the router is a pure total function with the documented priority
order: `APPROVED` yields `approved`; otherwise an exhausted retry budget yields
`max_retries`; otherwise `rejected`.  The approval check comes first, so an
approval with `retry_count ≥ max_retries` still yields `approved`. -/
theorem c2_router_priority (s : AgentState) :
    (s.decision = "APPROVED" → should_continue s = "approved") ∧
    (s.decision ≠ "APPROVED" → s.max_retries ≤ s.retry_count →
      should_continue s = "max_retries") ∧
    (s.decision ≠ "APPROVED" → s.retry_count < s.max_retries →
      should_continue s = "rejected") ∧
    (s.decision = "APPROVED" → s.max_retries ≤ s.retry_count →
      should_continue s = "approved") := by
  unfold should_continue
  refine ⟨fun h => by rw [if_pos h], fun h h2 => by rw [if_neg h, if_pos h2],
    fun h h2 => by rw [if_neg h, if_neg (Nat.not_le.mpr h2)], fun h _ => by rw [if_pos h]⟩

/-- Witness for C2: on a state approved exactly on the final allowed attempt
(`retry_count = max_retries = 5`), the router answers `approved`. -/
theorem c2_router_priority_witness :
    should_continue { sampleState with decision := "APPROVED", retry_count := 5 } = "approved" :=
  (c2_router_priority { sampleState with decision := "APPROVED", retry_count := 5 }).2.2.2
    rfl (by decide)

/-- Claim C10: any decision other than the literal `"APPROVED"` — including
arbitrary uppercased words the parser may emit — routes to `rejected` or
`max_retries`, never to `approved`. -/
theorem c10_non_approved_never_approves (s : AgentState) (h : s.decision ≠ "APPROVED") :
    (should_continue s = "rejected" ∨ should_continue s = "max_retries") ∧
    should_continue s ≠ "approved" := by
  unfold should_continue
  rw [if_neg h]
  by_cases hm : s.max_retries ≤ s.retry_count
  · rw [if_pos hm]; exact ⟨Or.inr rfl, by decide⟩
  · rw [if_neg hm]; exact ⟨Or.inl rfl, by decide⟩

/-- Witness for C10: the out-of-enum decision `"MAYBE"` does not route to
`approved`. -/
theorem c10_non_approved_never_approves_witness :
    (should_continue { sampleState with decision := "MAYBE" } = "rejected" ∨
      should_continue { sampleState with decision := "MAYBE" } = "max_retries") ∧
    should_continue { sampleState with decision := "MAYBE" } ≠ "approved" :=
  c10_non_approved_never_approves { sampleState with decision := "MAYBE" } (by decide)

/-- Claim C7: the creator's delta is exactly the two-field dictionary
`{current_copy := stripped backend text, retry_count := retry_count + 1}`
(every other field of the delta is absent), so the merge preserves all six
remaining state fields. -/
theorem c7_creator_delta_exact (g : String → String) (s : AgentState) :
    creator_agent g s =
      { current_copy := some (pyStrip (g (creatorPrompt s)))
        retry_count := some (s.retry_count + 1) } ∧
    (applyDelta s (creator_agent g s)).product_name = s.product_name ∧
    (applyDelta s (creator_agent g s)).target_audience = s.target_audience ∧
    (applyDelta s (creator_agent g s)).editor_feedback = s.editor_feedback ∧
    (applyDelta s (creator_agent g s)).feedback_history = s.feedback_history ∧
    (applyDelta s (creator_agent g s)).decision = s.decision ∧
    (applyDelta s (creator_agent g s)).max_retries = s.max_retries ∧
    (applyDelta s (creator_agent g s)).current_copy = pyStrip (g (creatorPrompt s)) ∧
    (applyDelta s (creator_agent g s)).retry_count = s.retry_count + 1 :=
  ⟨rfl, rfl, rfl, rfl, rfl, rfl, rfl, rfl, rfl⟩

/-- Claim C9: the editor's delta carries `decision`, `editor_feedback`,
`feedback_history` and passes `current_copy` through unchanged, but omits
`retry_count`, so the merge leaves the retry counter untouched. -/
theorem c9_editor_delta_frame (g : String → String) (s : AgentState) :
    (editor_agent g s).retry_count = none ∧
    (editor_agent g s).current_copy = some s.current_copy ∧
    (editor_agent g s).decision = some (parseReview (pyStrip (g (editorPrompt s)))).1 ∧
    (editor_agent g s).editor_feedback = some (parseReview (pyStrip (g (editorPrompt s)))).2 ∧
    ((editor_agent g s).feedback_history).isSome = true ∧
    (applyDelta s (editor_agent g s)).retry_count = s.retry_count ∧
    (applyDelta s (editor_agent g s)).current_copy = s.current_copy :=
  ⟨rfl, rfl, rfl, rfl, rfl, rfl, rfl⟩

/-- Counterexample to claim C1: on the input `"DECISION: MAYBE"` the parser
returns the decision `"MAYBE"`, which is neither `APPROVED` nor `REJECTED`. -/
theorem c1_decision_enum_counterexample :
    (parseReview "DECISION: MAYBE").1 = "MAYBE" ∧
    (parseReview "DECISION: MAYBE").1 ≠ "APPROVED" ∧
    (parseReview "DECISION: MAYBE").1 ≠ "REJECTED" := by
  decide

theorem getLast_filter_cons {α β : Type} (p : α → Bool) (u : α → β) (x : α) (ls : List α)
    (d : β) :
    ((((x :: ls).filter p).getLast?.map u).getD d)
      = (((ls.filter p).getLast?.map u).getD (if p x then u x else d)) := by
  by_cases h : p x
  · have hf : (x :: ls).filter p = x :: ls.filter p := by simp [List.filter_cons, h]
    rw [hf, if_pos h]
    cases hls : ls.filter p with
    | nil => simp
    | cons y ys =>
        rw [List.getLast?_cons_cons,
          List.getLast?_eq_getLast_of_ne_nil (List.cons_ne_nil y ys)]
        simp
  · have hf : (x :: ls).filter p = ls.filter p := by simp [List.filter_cons, h]
    rw [hf, if_neg h]

theorem foldl_reviewStep_eq : ∀ (ls : List String) (d0 f0 : String),
    ls.foldl reviewStep (d0, f0) =
      (((ls.filter fun l => pyStartsWith l "DECISION:").getLast?.map
          fun l => pyUpper (pyStrip (pyReplace l "DECISION:" ""))).getD d0,
       ((ls.filter fun l => pyStartsWith l "FEEDBACK:").getLast?.map
          fun l => pyStrip (pyReplace l "FEEDBACK:" "")).getD f0)
  | [], d0, f0 => rfl
  | x :: ls, d0, f0 => by
      rw [List.foldl_cons,
        show reviewStep (d0, f0) x
            = (if pyStartsWith x "DECISION:" then pyUpper (pyStrip (pyReplace x "DECISION:" ""))
                else d0,
               if pyStartsWith x "FEEDBACK:" then pyStrip (pyReplace x "FEEDBACK:" "")
                else f0) from rfl,
        foldl_reviewStep_eq ls, getLast_filter_cons, getLast_filter_cons]

/-- The parser in closed form: each result component is determined by the last
line carrying its prefix, with the source's defaults when no line matches. -/
theorem parseReview_eq (content : String) :
    parseReview content =
      (((pySplitLines content).filter fun l => pyStartsWith l "DECISION:").getLast?.map
          (fun l => pyUpper (pyStrip (pyReplace l "DECISION:" ""))) |>.getD "REJECTED",
       ((pySplitLines content).filter fun l => pyStartsWith l "FEEDBACK:").getLast?.map
          (fun l => pyStrip (pyReplace l "FEEDBACK:" "")) |>.getD "Error parsing feedback") :=
  foldl_reviewStep_eq (pySplitLines content) "REJECTED" "Error parsing feedback"

/-- Claim C3: the parser scans all lines; for each prefix the last matching
line wins; a missing `DECISION:` line defaults the decision to `REJECTED`; a
missing `FEEDBACK:` line defaults the feedback to the parse-error sentinel,
which differs from `"Good"`. -/
theorem c3_last_line_wins (content : String) :
    (parseReview content).1 =
      (((pySplitLines content).filter fun l => pyStartsWith l "DECISION:").getLast?.map
          (fun l => pyUpper (pyStrip (pyReplace l "DECISION:" ""))) |>.getD "REJECTED") ∧
    (parseReview content).2 =
      (((pySplitLines content).filter fun l => pyStartsWith l "FEEDBACK:").getLast?.map
          (fun l => pyStrip (pyReplace l "FEEDBACK:" "")) |>.getD "Error parsing feedback") ∧
    ("Error parsing feedback" : String) ≠ "Good" :=
  ⟨congrArg Prod.fst (parseReview_eq content), congrArg Prod.snd (parseReview_eq content),
    by decide⟩

theorem mem_of_getLast_eq_some {α : Type} : ∀ {xs : List α} {x : α},
    xs.getLast? = some x → x ∈ xs
  | [a], _, h => by
      rw [List.getLast?_singleton] at h
      rw [Option.some.injEq] at h
      exact h ▸ List.mem_singleton_self a
  | a :: b :: t, x, h => by
      rw [List.getLast?_cons_cons] at h
      exact List.mem_cons_of_mem a (mem_of_getLast_eq_some h)

/-- Claim C1, amended: the parse is total, but the decision is only `REJECTED`
by default or the uppercased stripped remainder of some `DECISION:` line — a
value that need not lie in `{APPROVED, REJECTED}`; the feedback is always a
definite string, the sentinel by default or the stripped remainder of some
`FEEDBACK:` line. -/
theorem c1_parse_total_amended (content : String) :
    ((parseReview content).1 = "REJECTED" ∨
      ∃ l, l ∈ pySplitLines content ∧ pyStartsWith l "DECISION:" = true ∧
        (parseReview content).1 = pyUpper (pyStrip (pyReplace l "DECISION:" ""))) ∧
    ((parseReview content).2 = "Error parsing feedback" ∨
      ∃ l, l ∈ pySplitLines content ∧ pyStartsWith l "FEEDBACK:" = true ∧
        (parseReview content).2 = pyStrip (pyReplace l "FEEDBACK:" "")) := by
  have h1 := congrArg Prod.fst (parseReview_eq content)
  have h2 := congrArg Prod.snd (parseReview_eq content)
  constructor
  · cases hd : ((pySplitLines content).filter fun l => pyStartsWith l "DECISION:").getLast? with
    | none => left; rw [h1, hd]; rfl
    | some l =>
        right
        have hmem := mem_of_getLast_eq_some hd
        rw [List.mem_filter] at hmem
        exact ⟨l, hmem.1, hmem.2, by rw [h1, hd]; rfl⟩
  · cases hf : ((pySplitLines content).filter fun l => pyStartsWith l "FEEDBACK:").getLast? with
    | none => left; rw [h2, hf]; rfl
    | some l =>
        right
        have hmem := mem_of_getLast_eq_some hf
        rw [List.mem_filter] at hmem
        exact ⟨l, hmem.1, hmem.2, by rw [h2, hf]; rfl⟩

theorem should_continue_ne_approved (s : AgentState) (h : s.decision ≠ "APPROVED") :
    should_continue s ≠ "approved" := by
  unfold should_continue
  rw [if_neg h]
  by_cases hm : s.max_retries ≤ s.retry_count
  · rw [if_pos hm]; decide
  · rw [if_neg hm]; decide

/-- Claim C6: when no line of the critic response carries either prefix, the
editor defaults to decision `REJECTED` with the parse-error sentinel as
feedback, appends the sentinel to the history, and the router cannot answer
`approved` on the merged state — the run just retries. -/
theorem c6_parse_error_soft_default (g : String → String) (s : AgentState)
    (h : ∀ l ∈ pySplitLines (pyStrip (g (editorPrompt s))),
      pyStartsWith l "DECISION:" = false ∧ pyStartsWith l "FEEDBACK:" = false) :
    editor_agent g s =
      { decision := some "REJECTED"
        editor_feedback := some "Error parsing feedback"
        feedback_history := some (s.feedback_history ++ ["Error parsing feedback"])
        current_copy := some s.current_copy } ∧
    should_continue (applyDelta s (editor_agent g s)) ≠ "approved" := by
  have hd : (pySplitLines (pyStrip (g (editorPrompt s)))).filter
      (fun l => pyStartsWith l "DECISION:") = [] := by
    rw [List.filter_eq_nil_iff]
    intro a ha
    simp [(h a ha).1]
  have hf : (pySplitLines (pyStrip (g (editorPrompt s)))).filter
      (fun l => pyStartsWith l "FEEDBACK:") = [] := by
    rw [List.filter_eq_nil_iff]
    intro a ha
    simp [(h a ha).2]
  have hparse : parseReview (pyStrip (g (editorPrompt s)))
      = ("REJECTED", "Error parsing feedback") := by
    rw [parseReview_eq, hd, hf]
    rfl
  have hdelta : editor_agent g s =
      { decision := some "REJECTED"
        editor_feedback := some "Error parsing feedback"
        feedback_history := some (s.feedback_history ++ ["Error parsing feedback"])
        current_copy := some s.current_copy } := by
    simp only [editor_agent]
    rw [hparse]
    rfl
  refine ⟨hdelta, should_continue_ne_approved (applyDelta s (editor_agent g s)) ?_⟩
  rw [hdelta]
  show ("REJECTED" : String) ≠ "APPROVED"
  decide

/-- Witness for C6: a concrete chatty response with neither prefix. -/
theorem c6_parse_error_soft_default_witness :
    editor_agent (fun _ => "Sure! Here is my review.\nLooks fine to me.") sampleState =
      { decision := some "REJECTED"
        editor_feedback := some "Error parsing feedback"
        feedback_history := some (sampleState.feedback_history ++ ["Error parsing feedback"])
        current_copy := some sampleState.current_copy } ∧
    should_continue (applyDelta sampleState
      (editor_agent (fun _ => "Sure! Here is my review.\nLooks fine to me.") sampleState))
      ≠ "approved" :=
  c6_parse_error_soft_default (fun _ => "Sure! Here is my review.\nLooks fine to me.")
    sampleState (by decide)

/-- Claim C5: the editor appends the parsed feedback to the history exactly
when it is non-empty and differs from `"Good"`, and otherwise leaves the
history unchanged; the creator's delta never carries the history field; and in
every reachable state the history contains neither `"Good"` nor the empty
string. -/
theorem c5_history_policy :
    (∀ (g : String → String) (s : AgentState) (fb : String),
      (editor_agent g s).editor_feedback = some fb →
      ((fb ≠ "" ∧ fb ≠ "Good") →
        (editor_agent g s).feedback_history = some (s.feedback_history ++ [fb])) ∧
      ((fb = "" ∨ fb = "Good") →
        (editor_agent g s).feedback_history = some s.feedback_history)) ∧
    (∀ (g : String → String) (s : AgentState), (creator_agent g s).feedback_history = none) ∧
    (∀ s : AgentState, Reachable s →
      "Good" ∉ s.feedback_history ∧ "" ∉ s.feedback_history) := by
  refine ⟨?_, fun g s => rfl, ?_⟩
  · intro g s fb hfb
    have hfb' : (parseReview (pyStrip (g (editorPrompt s)))).2 = fb := by
      simpa [editor_agent] using hfb
    subst hfb'
    have hfh : (editor_agent g s).feedback_history =
        some (if (parseReview (pyStrip (g (editorPrompt s)))).2 ≠ "" ∧
              (parseReview (pyStrip (g (editorPrompt s)))).2 ≠ "Good"
          then s.feedback_history ++ [(parseReview (pyStrip (g (editorPrompt s)))).2]
          else s.feedback_history) := rfl
    refine ⟨fun hc => ?_, fun hc => ?_⟩
    · rw [hfh, if_pos hc]
    · rw [hfh, if_neg (fun hand => hc.elim (fun h1 => hand.1 h1) (fun h2 => hand.2 h2))]
  · intro s hs
    induction hs with
    | init p a m => exact ⟨List.not_mem_nil _, List.not_mem_nil _⟩
    | creator g t ht ih => exact ih
    | editor g t ht ih =>
        have hfh : (applyDelta t (editor_agent g t)).feedback_history =
            (if (parseReview (pyStrip (g (editorPrompt t)))).2 ≠ "" ∧
                (parseReview (pyStrip (g (editorPrompt t)))).2 ≠ "Good"
             then t.feedback_history ++ [(parseReview (pyStrip (g (editorPrompt t)))).2]
             else t.feedback_history) := rfl
        rw [hfh]
        by_cases hc : (parseReview (pyStrip (g (editorPrompt t)))).2 ≠ "" ∧
            (parseReview (pyStrip (g (editorPrompt t)))).2 ≠ "Good"
        · simp only [if_pos hc]
          refine ⟨fun hmem => ?_, fun hmem => ?_⟩
          · rcases List.mem_append.mp hmem with hm | hm
            · exact ih.1 hm
            · exact hc.2 (List.mem_singleton.mp hm).symm
          · rcases List.mem_append.mp hmem with hm | hm
            · exact ih.2 hm
            · exact hc.1 (List.mem_singleton.mp hm).symm
        · simp only [if_neg hc]
          exact ih

/-- Witness for C5: a concrete rejecting review appends its feedback; a
concrete creator call returns no history field; the initial state's history
avoids `"Good"` and the empty string. -/
theorem c5_history_policy_witness :
    (editor_agent (fun _ => "DECISION: REJECTED\nFEEDBACK: Too spammy") sampleState).feedback_history
        = some (sampleState.feedback_history ++ ["Too spammy"]) ∧
    (creator_agent (fun _ => "new draft") sampleState).feedback_history = none ∧
    ("Good" ∉ (initState "Widget" "Teens" 5).feedback_history ∧
      "" ∉ (initState "Widget" "Teens" 5).feedback_history) :=
  ⟨(c5_history_policy.1 (fun _ => "DECISION: REJECTED\nFEEDBACK: Too spammy") sampleState
      "Too spammy" (by decide)).1 (by decide),
    c5_history_policy.2.1 (fun _ => "new draft") sampleState,
    c5_history_policy.2.2 (initState "Widget" "Teens" 5) (Reachable.init "Widget" "Teens" 5)⟩

/-- Claim C8: with `retry_count = 0` the creator prompt depends only on
`product_name` and `target_audience`; with `retry_count > 0` it contains the
newline-joined feedback history followed, separately, by the most recent
`editor_feedback`. -/
theorem c8_prompt_modes :
    (∀ s t : AgentState, s.retry_count = 0 → t.retry_count = 0 →
      s.product_name = t.product_name → s.target_audience = t.target_audience →
      creatorPrompt s = creatorPrompt t) ∧
    (∀ s : AgentState, 0 < s.retry_count →
      ∃ pre mid post : String,
        creatorPrompt s =
          pre ++ pyJoin "\n" s.feedback_history ++ mid ++ s.editor_feedback ++ post ∧
        pre = "Your previous draft for '" ++ s.product_name ++ "' was rejected.\n"
            ++ "Past Feedback History:\n" ∧
        mid = "\n\nMost Recent Feedback: " ∧
        post = "\n\nPlease write a NEW caption that fixes these issues and respects "
            ++ "ALL past feedback. Output ONLY the caption text.") := by
  constructor
  · intro s t hs ht hp ha
    unfold creatorPrompt
    rw [if_pos hs, if_pos ht, hp, ha]
  · intro s hs
    refine ⟨_, _, _, ?_, rfl, rfl, rfl⟩
    unfold creatorPrompt
    rw [if_neg (Nat.pos_iff_ne_zero.mp hs)]

/-- Witness for C8: two fresh states differing only in feedback fields build
the same prompt, and a retrying state's prompt decomposes around its history
and latest feedback. -/
theorem c8_prompt_modes_witness :
    creatorPrompt { sampleState with retry_count := 0 }
        = creatorPrompt
            { sampleState with retry_count := 0, editor_feedback := "", feedback_history := [] } ∧
    (∃ pre mid post : String,
      creatorPrompt sampleState =
        pre ++ pyJoin "\n" sampleState.feedback_history ++ mid
          ++ sampleState.editor_feedback ++ post ∧
      pre = "Your previous draft for '" ++ sampleState.product_name ++ "' was rejected.\n"
          ++ "Past Feedback History:\n" ∧
      mid = "\n\nMost Recent Feedback: " ∧
      post = "\n\nPlease write a NEW caption that fixes these issues and respects "
          ++ "ALL past feedback. Output ONLY the caption text.") :=
  ⟨c8_prompt_modes.1 { sampleState with retry_count := 0 }
      { sampleState with retry_count := 0, editor_feedback := "", feedback_history := [] }
      rfl rfl rfl rfl,
    c8_prompt_modes.2 sampleState (by decide)⟩

theorem roundStep_retry (cR eR : Nat → String) (s : AgentState) :
    (roundStep cR eR s).retry_count = s.retry_count + 1 := rfl

theorem roundStep_max (cR eR : Nat → String) (s : AgentState) :
    (roundStep cR eR s).max_retries = s.max_retries := rfl

theorem roundStep_decision (cR eR : Nat → String) (s : AgentState) :
    (roundStep cR eR s).decision = (parseReview (pyStrip (eR s.retry_count))).1 := rfl

theorem should_continue_cases (s : AgentState) :
    should_continue s = "approved" ∨ should_continue s = "max_retries" ∨
      should_continue s = "rejected" := by
  unfold should_continue
  by_cases h1 : s.decision = "APPROVED"
  · rw [if_pos h1]; exact Or.inl rfl
  · rw [if_neg h1]
    by_cases h2 : s.max_retries ≤ s.retry_count
    · rw [if_pos h2]; exact Or.inr (Or.inl rfl)
    · rw [if_neg h2]; exact Or.inr (Or.inr rfl)

theorem should_continue_rejected_lt (s : AgentState)
    (h : should_continue s = "rejected") : s.retry_count < s.max_retries := by
  unfold should_continue at h
  by_cases h1 : s.decision = "APPROVED"
  · rw [if_pos h1] at h; exact absurd h (by decide)
  · rw [if_neg h1] at h
    by_cases h2 : s.max_retries ≤ s.retry_count
    · rw [if_pos h2] at h; exact absurd h (by decide)
    · exact Nat.not_le.mp h2

theorem runFuel_spec (cR eR : Nat → String) :
    ∀ (fuel : Nat) (s : AgentState) (calls : Nat),
      s.retry_count < s.max_retries → s.max_retries ≤ s.retry_count + fuel →
      ((runFuel cR eR fuel s calls).2.1 = "approved" ∨
        (runFuel cR eR fuel s calls).2.1 = "max_retries") ∧
      (runFuel cR eR fuel s calls).1.retry_count ≤ s.max_retries ∧
      (runFuel cR eR fuel s calls).1.max_retries = s.max_retries ∧
      (runFuel cR eR fuel s calls).2.2 + s.retry_count
        = (runFuel cR eR fuel s calls).1.retry_count + calls
  | 0, s, calls, hlt, hle => absurd hle (by omega)
  | fuel + 1, s, calls, hlt, hle => by
      have h1 : (roundStep cR eR s).retry_count = s.retry_count + 1 := rfl
      have h2 : (roundStep cR eR s).max_retries = s.max_retries := rfl
      simp only [runFuel]
      by_cases hr : should_continue (roundStep cR eR s) = "rejected"
      · rw [if_pos hr]
        have hlt2 : (roundStep cR eR s).retry_count < (roundStep cR eR s).max_retries :=
          should_continue_rejected_lt _ hr
        obtain ⟨ha, hb, hc, hd⟩ :=
          runFuel_spec cR eR fuel (roundStep cR eR s) (calls + 1) hlt2 (by omega)
        exact ⟨ha, by omega, by omega, by omega⟩
      · rw [if_neg hr]
        refine ⟨?_, ?_, ?_, ?_⟩
        · rcases should_continue_cases (roundStep cR eR s) with h | h | h
          · exact Or.inl h
          · exact Or.inr h
          · exact absurd h hr
        · show (roundStep cR eR s).retry_count ≤ s.max_retries
          omega
        · show (roundStep cR eR s).max_retries = s.max_retries
          exact h2
        · show (calls + 1) + s.retry_count = (roundStep cR eR s).retry_count + calls
          omega

theorem runFuel_never_approved (cR eR : Nat → String)
    (hA : ∀ k, (parseReview (pyStrip (eR k))).1 ≠ "APPROVED") :
    ∀ (fuel : Nat) (s : AgentState) (calls : Nat),
      s.retry_count < s.max_retries → s.max_retries ≤ s.retry_count + fuel →
      (runFuel cR eR fuel s calls).2.1 = "max_retries" ∧
      (runFuel cR eR fuel s calls).1.retry_count = s.max_retries
  | 0, s, calls, hlt, hle => absurd hle (by omega)
  | fuel + 1, s, calls, hlt, hle => by
      have h1 : (roundStep cR eR s).retry_count = s.retry_count + 1 := rfl
      have h2 : (roundStep cR eR s).max_retries = s.max_retries := rfl
      have hnA : (roundStep cR eR s).decision ≠ "APPROVED" := by
        rw [roundStep_decision]
        exact hA s.retry_count
      simp only [runFuel]
      by_cases hmax : s.max_retries ≤ s.retry_count + 1
      · have hsc : should_continue (roundStep cR eR s) = "max_retries" := by
          unfold should_continue
          rw [if_neg hnA,
            if_pos (show (roundStep cR eR s).max_retries ≤ (roundStep cR eR s).retry_count by
              omega)]
        rw [if_neg (by rw [hsc]; decide)]
        exact ⟨hsc, by show (roundStep cR eR s).retry_count = s.max_retries; omega⟩
      · have hsc : should_continue (roundStep cR eR s) = "rejected" := by
          unfold should_continue
          rw [if_neg hnA,
            if_neg (show ¬(roundStep cR eR s).max_retries ≤ (roundStep cR eR s).retry_count by
              omega)]
        rw [if_pos hsc]
        obtain ⟨ha, hb⟩ := runFuel_never_approved cR eR hA fuel (roundStep cR eR s) (calls + 1)
          (by omega) (by omega)
        exact ⟨ha, by omega⟩

/-- Claim C4: for any retry budget `N ≥ 1` and any backend response sequences,
the loop terminates with a terminal router outcome, invokes the creator at
most `N` times (the final `retry_count` counts those invocations), and if the
parsed decision is never `APPROVED` the run ends with outcome `max_retries`
exactly when `retry_count` reaches `N`. -/
theorem c4_budget_and_termination (cR eR : Nat → String) (p a : String) (N : Nat)
    (hN : 1 ≤ N) :
    ((run_workflow cR eR p a N).2.1 = "approved" ∨
      (run_workflow cR eR p a N).2.1 = "max_retries") ∧
    (run_workflow cR eR p a N).2.2 ≤ N ∧
    (run_workflow cR eR p a N).1.retry_count = (run_workflow cR eR p a N).2.2 ∧
    ((∀ k, (parseReview (pyStrip (eR k))).1 ≠ "APPROVED") →
      (run_workflow cR eR p a N).2.1 = "max_retries" ∧
      (run_workflow cR eR p a N).1.retry_count = N) := by
  have h0 : (initState p a N).retry_count = 0 := rfl
  have h1 : (initState p a N).max_retries = N := rfl
  obtain ⟨ha, hb, hc, hd⟩ :=
    runFuel_spec cR eR N (initState p a N) 0 (by omega) (by omega)
  rw [h1] at hb
  rw [h0] at hd
  refine ⟨ha, ?_, ?_, ?_⟩
  · show (runFuel cR eR N (initState p a N) 0).2.2 ≤ N
    omega
  · show (runFuel cR eR N (initState p a N) 0).1.retry_count
      = (runFuel cR eR N (initState p a N) 0).2.2
    omega
  intro hA
  obtain ⟨hx, hy⟩ :=
    runFuel_never_approved cR eR hA N (initState p a N) 0 (by omega) (by omega)
  rw [h1] at hy
  exact ⟨hx, hy⟩

/-- Witness for C4: with budget 2 and a backend that always rejects, the run
ends with outcome `max_retries` after exactly 2 creator invocations. -/
theorem c4_budget_and_termination_witness :
    (run_workflow (fun _ => " draft ") (fun _ => "DECISION: REJECTED\nFEEDBACK: bad")
        "Widget" "Teens" 2).2.1 = "max_retries" ∧
    (run_workflow (fun _ => " draft ") (fun _ => "DECISION: REJECTED\nFEEDBACK: bad")
        "Widget" "Teens" 2).1.retry_count = 2 :=
  (c4_budget_and_termination (fun _ => " draft ")
      (fun _ => "DECISION: REJECTED\nFEEDBACK: bad") "Widget" "Teens" 2 (by decide)).2.2.2
    (fun k => by decide)

example : pyStrip "  x \n" = "x" := by decide
example : pyUpper "rejected " = "REJECTED " := by decide
example : pySplitLines "a\nb" = ["a", "b"] := by decide
example : pyStartsWith "DECISION: x" "DECISION:" = true := by decide
example : pyReplace "DECISION: x" "DECISION:" "" = " x" := by decide
example : pyJoin "\n" ["a", "b"] = "a\nb" := by decide
example : parseReview "DECISION: approved\nFEEDBACK: Good" = ("APPROVED", "Good") := by decide
example : parseReview "DECISION: MAYBE" = ("MAYBE", "Error parsing feedback") := by decide
example : parseReview "nothing" = ("REJECTED", "Error parsing feedback") := by decide
example :
    (run_workflow (fun _ => " draft ") (fun _ => "DECISION: REJECTED\nFEEDBACK: bad") "p" "a" 2).2
      = ("max_retries", 2) := by decide
example :
    (run_workflow (fun _ => "draft") (fun _ => "DECISION: APPROVED\nFEEDBACK: Good") "p" "a" 5).2
      = ("approved", 1) := by decide
